import Mathlib

/-!
Verification of the GTK fragment consisting of gtkimcontextime.c (the Win32
input-method context together with the GDK Win32 surface backend that is part
of the same translation unit) and gtksearchentry.c.

The C code is shallowly embedded: machine integers become Nat/Int (with the
32-bit complement `s &= ~m` rendered through `andNot`, which agrees with the C
operation on values below 2^32), C `double` arithmetic becomes exact rational
arithmetic over ℚ, external Win32/GLib calls become explicit environment
records, and side effects (signal emissions, Win32 window updates) become
explicit traces returned alongside the new state.
-/

set_option linter.unusedVariables false

namespace Gtk

/-- Models the C expression `a & ~b` on 32-bit operands: clears from `a`
every bit that is set in `b`.  For `a < 2^32` this agrees with the C code,
and it needs no width bound in Lean. -/
def andNot (a b : Nat) : Nat := a ^^^ (a &&& b)

/-- Models the C library function `round` (rounding half away from zero),
applied to an exact rational standing in for the C `double`. -/
def cround (q : ℚ) : ℤ := if 0 ≤ q then ⌊q + 1/2⌋ else -⌊-q + 1/2⌋

/-! ## Input-method context: gtkimcontextime.c lines 64-409

Constants from gdkkeysyms.h / gdkenums.h used by the code. -/

def GDK_CONTROL_MASK : Nat := 4
def GDK_ALT_MASK : Nat := 8
def GDK_KEY_space : Nat := 0x20
def GDK_KEY_dead_grave : Nat := 0xfe50
def GDK_KEY_dead_dasia : Nat := 0xfe65

/-- Macro IS_DEAD_KEY from gtkimcontextime.c line 64. -/
def IS_DEAD_KEY (k : Nat) : Bool :=
  GDK_KEY_dead_grave ≤ k && k ≤ GDK_KEY_dead_dasia + 1

/-- Function _gtk_im_context_ime_dead_key_unichar (lines 281-314): the CASE
table mapping a dead-key keyval to its combining (or spacing) character. -/
def gtk_im_context_ime_dead_key_unichar (keyval : Nat) (spacing : Bool) : Nat :=
  if keyval = 0xfe50 then (if spacing then 0x0060 else 0x0300)       -- grave
  else if keyval = 0xfe51 then (if spacing then 0x00b4 else 0x0301)  -- acute
  else if keyval = 0xfe52 then (if spacing then 0x005e else 0x0302)  -- circumflex
  else if keyval = 0xfe53 then (if spacing then 0x007e else 0x0303)  -- tilde
  else if keyval = 0xfe54 then (if spacing then 0x00af else 0x0304)  -- macron
  else if keyval = 0xfe55 then (if spacing then 0x02d8 else 0x0306)  -- breve
  else if keyval = 0xfe56 then (if spacing then 0x02d9 else 0x0307)  -- abovedot
  else if keyval = 0xfe57 then (if spacing then 0x00a8 else 0x0308)  -- diaeresis
  else if keyval = 0xfe61 then (if spacing then 0 else 0x0309)       -- hook
  else if keyval = 0xfe58 then (if spacing then 0x02da else 0x030A)  -- abovering
  else if keyval = 0xfe59 then (if spacing then 0x2dd else 0x030B)   -- doubleacute
  else if keyval = 0xfe5a then (if spacing then 0x02c7 else 0x030C)  -- caron
  else if keyval = 0xfe64 then (if spacing then 0 else 0x0313)       -- abovecomma
  else if keyval = 0xfe65 then (if spacing then 0 else 0x0314)       -- abovereversedcomma
  else if keyval = 0xfe62 then (if spacing then 0 else 0x031B)       -- horn
  else if keyval = 0xfe60 then (if spacing then 0 else 0x0323)       -- belowdot
  else if keyval = 0xfe5b then (if spacing then 0x00b8 else 0x0327)  -- cedilla
  else if keyval = 0xfe5c then (if spacing then 0 else 0x0328)       -- ogonek
  else if keyval = 0xfe5d then (if spacing then 0 else 0x0345)       -- iota
  else 0

/-- Models GLib's g_unichar_iscntrl: true exactly on the Unicode Cc
(ISO control) characters. -/
def g_unichar_iscntrl (c : Nat) : Bool :=
  c < 0x20 || (0x7f ≤ c && c ≤ 0x9f)

/-- Models GLib's g_unichar_to_utf8: the standard UTF-8 encoding of a
character, as the list of encoded bytes. -/
def g_unichar_to_utf8 (c : Nat) : List Nat :=
  if c < 0x80 then [c]
  else if c < 0x800 then
    [0xc0 ||| (c >>> 6), 0x80 ||| (c &&& 0x3f)]
  else if c < 0x10000 then
    [0xe0 ||| (c >>> 12), 0x80 ||| ((c >>> 6) &&& 0x3f), 0x80 ||| (c &&& 0x3f)]
  else if c < 0x200000 then
    [0xf0 ||| (c >>> 18), 0x80 ||| ((c >>> 12) &&& 0x3f),
     0x80 ||| ((c >>> 6) &&& 0x3f), 0x80 ||| (c &&& 0x3f)]
  else if c < 0x4000000 then
    [0xf8 ||| (c >>> 24), 0x80 ||| ((c >>> 18) &&& 0x3f), 0x80 ||| ((c >>> 12) &&& 0x3f),
     0x80 ||| ((c >>> 6) &&& 0x3f), 0x80 ||| (c &&& 0x3f)]
  else
    [0xfc ||| (c >>> 30), 0x80 ||| ((c >>> 24) &&& 0x3f), 0x80 ||| ((c >>> 18) &&& 0x3f),
     0x80 ||| ((c >>> 12) &&& 0x3f), 0x80 ||| ((c >>> 6) &&& 0x3f), 0x80 ||| (c &&& 0x3f)]

/-- External functions the IME context calls: gdk_keyval_to_unicode, and the
value left in `c` by the call `g_unichar_compose (c, combining, &c)`. -/
structure ImeEnv where
  keyval_to_unicode : Nat → Nat
  unichar_compose : Nat → Nat → Nat

/-- The part of GtkIMContextIME (and its private struct) the key-press path
reads and writes: the focus flag, presence of a client surface, and the
pending dead-key keyval. -/
structure ImeState where
  focus : Bool
  has_client_surface : Bool
  dead_key_keyval : Nat
  deriving DecidableEq, Repr

/-- The data gtk_im_context_ime_filter_keypress extracts from the GdkEvent. -/
structure KeyEvent where
  is_release : Bool
  state : Nat
  consumed_modifiers : Nat
  keyval : Nat
  deriving DecidableEq, Repr

/-- Function _gtk_im_context_ime_commit_unichar (lines 316-338).  Returns the
new context state and the list of UTF-8 strings emitted on the commit
signal. -/
def gtk_im_context_ime_commit_unichar (env : ImeEnv) (st : ImeState) (c : Nat) :
    ImeState × List (List Nat) :=
  let c :=
    if st.dead_key_keyval ≠ 0 then
      env.unichar_compose c
        (gtk_im_context_ime_dead_key_unichar st.dead_key_keyval false)
    else c
  ({ st with dead_key_keyval := 0 }, [g_unichar_to_utf8 c])

/-- Function gtk_im_context_ime_filter_keypress (lines 340-409).  Returns the
gboolean result, the new context state, and the UTF-8 strings emitted on the
commit signal, in order of emission. -/
def gtk_im_context_ime_filter_keypress (env : ImeEnv) (st : ImeState) (ev : KeyEvent) :
    Bool × ImeState × List (List Nat) :=
  if ev.is_release then (false, st, [])
  else
    let no_text_input_mask := GDK_ALT_MASK ||| GDK_CONTROL_MASK
    if andNot (ev.state &&& no_text_input_mask) ev.consumed_modifiers ≠ 0 then
      (false, st, [])
    else if !st.focus then (false, st, [])
    else if !st.has_client_surface then (false, st, [])
    else if ev.keyval = GDK_KEY_space ∧ st.dead_key_keyval ≠ 0 then
      let c := gtk_im_context_ime_dead_key_unichar st.dead_key_keyval true
      let st' := { st with dead_key_keyval := 0 }
      let (st'', out) := gtk_im_context_ime_commit_unichar env st' c
      (true, st'', out)
    else
      let c := env.keyval_to_unicode ev.keyval
      if c ≠ 0 ∧ ¬ g_unichar_iscntrl c then
        let (st', out) := gtk_im_context_ime_commit_unichar env st c
        (true, st', out)
      else if IS_DEAD_KEY ev.keyval then
        let dead_key := gtk_im_context_ime_dead_key_unichar ev.keyval false
        if dead_key ≠ 0 ∧ ev.keyval = st.dead_key_keyval then
          -- Emulate double input of dead keys
          let c := gtk_im_context_ime_dead_key_unichar st.dead_key_keyval true
          let st' := { st with dead_key_keyval := 0 }
          let (st1, out1) := gtk_im_context_ime_commit_unichar env st' c
          let (st2, out2) := gtk_im_context_ime_commit_unichar env st1 c
          (false, st2, out1 ++ out2)
        else
          (false, { st with dead_key_keyval := ev.keyval }, [])
      else (false, st, [])

/-! ## Modal window stack: gtkimcontextime.c lines 2613-2674

Surfaces are identified by numbers; whether a surface is mapped
(GDK_SURFACE_IS_MAPPED) is an environment parameter. -/

/-- Function _gdk_push_modal_window (lines 2613-2617): g_slist_prepend. -/
def gdk_push_modal_window (stack : List Nat) (window : Nat) : List Nat :=
  window :: stack

/-- The loop of _gdk_modal_blocked (lines 2646-2655), with the running
`found_any` flag made explicit. -/
def gdk_modal_blocked_loop (mapped : Nat → Bool) (stack : List Nat) (window : Nat)
    (found_any : Bool) : Bool :=
  match stack with
  | [] => found_any
  | modal :: rest =>
    if modal = window then false
    else gdk_modal_blocked_loop mapped rest window (found_any || mapped modal)

/-- Function _gdk_modal_blocked (lines 2640-2658). -/
def gdk_modal_blocked (mapped : Nat → Bool) (stack : List Nat) (window : Nat) : Bool :=
  gdk_modal_blocked_loop mapped stack window false

/-- Function _gdk_modal_current (lines 2660-2674): the first mapped surface
from the head of the stack, or NULL. -/
def gdk_modal_current (mapped : Nat → Bool) (stack : List Nat) : Option Nat :=
  match stack with
  | [] => none
  | modal :: rest => if mapped modal then some modal else gdk_modal_current mapped rest

/-- The stack obtained from a chronological sequence of pushes. -/
def modal_stack_of_pushes (pushes : List Nat) : List Nat :=
  pushes.foldl gdk_push_modal_window []

/-! ## Search entry: gtksearchentry.c

Widgets are identified by allocation order; a heap records the text content
of GtkText widgets. -/

structure WidgetHeap where
  next_id : Nat
  text_of : Nat → String

/-- Allocation of a fresh GtkText widget (gtk_text_new). -/
def gtk_text_new (h : WidgetHeap) : Nat × WidgetHeap :=
  (h.next_id, { h with next_id := h.next_id + 1 })

/-- Allocation of a fresh GtkImage widget (g_object_new (GTK_TYPE_IMAGE, ...)). -/
def gtk_image_new (h : WidgetHeap) : Nat × WidgetHeap :=
  (h.next_id, { h with next_id := h.next_id + 1 })

/-- The widget fields of GtkSearchEntry (gtksearchentry.c lines 118-131). -/
structure GtkSearchEntry where
  search_icon : Nat
  entry : Nat
  icon : Nat
  deriving DecidableEq, Repr

/-- Function gtk_search_entry_init (lines 592-635): allocates the search
icon, the internal GtkText stored in entry->entry, and the clear icon. -/
def gtk_search_entry_init (h : WidgetHeap) : GtkSearchEntry × WidgetHeap :=
  let (sicon, h) := gtk_image_new h       -- "system-search-symbolic"
  let (text, h) := gtk_text_new h         -- entry->entry = gtk_text_new ()
  let (cicon, h) := gtk_image_new h       -- entry->icon, "edit-clear-symbolic"
  ({ search_icon := sicon, entry := text, icon := cicon }, h)

/-- Function gtk_search_entry_get_delegate (lines 454-458). -/
def gtk_search_entry_get_delegate (e : GtkSearchEntry) : Nat := e.entry

/-- Function gtk_search_entry_get_text_widget (lines 782-786). -/
def gtk_search_entry_get_text_widget (e : GtkSearchEntry) : Nat := e.entry

/-- GtkEditable delegate dispatch: reading the editable text of the search
entry reads the text of the delegate widget. -/
def gtk_editable_get_text (h : WidgetHeap) (e : GtkSearchEntry) : String :=
  h.text_of (gtk_search_entry_get_delegate e)

/-- GtkEditable delegate dispatch: writing the editable text of the search
entry writes the text of the delegate widget. -/
def gtk_editable_set_text (h : WidgetHeap) (e : GtkSearchEntry) (s : String) : WidgetHeap :=
  { h with
    text_of := fun i => if i = gtk_search_entry_get_delegate e then s else h.text_of i }

/-! ### Delayed search-changed machinery (gtksearchentry.c lines 513-562) -/

/-- Constant DELAYED_TIMEOUT_ID (line 154): 150 milliseconds of delay. -/
def DELAYED_TIMEOUT_ID : Nat := 150

/-- State of the delayed search-changed machinery, together with the GLib
main-loop timeout sources belonging to this entry: `pending` lists the
scheduled sources as (source id, interval in milliseconds);
`search_changed_emissions` counts emissions of the search-changed signal. -/
structure SearchTimeoutState where
  delayed_changed_id : Nat
  pending : List (Nat × Nat)
  next_source_id : Nat
  search_changed_emissions : Nat
  icon_visible : Bool
  deriving DecidableEq, Repr

/-- Models g_timeout_add: allocates a fresh nonzero source id, schedules it. -/
def g_timeout_add (interval : Nat) (st : SearchTimeoutState) : Nat × SearchTimeoutState :=
  (st.next_source_id,
   { st with pending := st.pending ++ [(st.next_source_id, interval)],
             next_source_id := st.next_source_id + 1 })

/-- Models g_source_remove: unschedules the source with the given id. -/
def g_source_remove (id : Nat) (st : SearchTimeoutState) : SearchTimeoutState :=
  { st with pending := st.pending.filter (fun p => p.1 ≠ id) }

/-- Function reset_timeout (lines 524-533). -/
def reset_timeout (st : SearchTimeoutState) : SearchTimeoutState :=
  let st := if st.delayed_changed_id > 0 then g_source_remove st.delayed_changed_id st else st
  let (id, st') := g_timeout_add DELAYED_TIMEOUT_ID st
  { st' with delayed_changed_id := id }

/-- Function gtk_search_entry_changed (lines 535-562); `text_empty` tells
whether gtk_editable_get_text on the internal entry is NULL or "". -/
def gtk_search_entry_changed (st : SearchTimeoutState) (text_empty : Bool) :
    SearchTimeoutState :=
  if text_empty then
    let st := { st with icon_visible := false }
    let st :=
      if st.delayed_changed_id > 0 then
        { g_source_remove st.delayed_changed_id st with delayed_changed_id := 0 }
      else st
    { st with search_changed_emissions := st.search_changed_emissions + 1 }
  else
    reset_timeout { st with icon_visible := true }

/-- Function gtk_search_entry_changed_timeout_cb (lines 513-522): emits
search-changed, zeroes the stored id, and returns G_SOURCE_REMOVE (false). -/
def gtk_search_entry_changed_timeout_cb (st : SearchTimeoutState) :
    SearchTimeoutState × Bool :=
  ({ st with search_changed_emissions := st.search_changed_emissions + 1,
             delayed_changed_id := 0 },
   false)

/-- The GLib main loop firing a scheduled source of this entry: the callback
runs and, as it returns G_SOURCE_REMOVE, the source is removed. -/
def fire_timeout (id : Nat) (st : SearchTimeoutState) : SearchTimeoutState :=
  if (st.pending.map Prod.fst).contains id then
    g_source_remove id (gtk_search_entry_changed_timeout_cb st).1
  else st

/-- The invariant tying the stored timeout id to the scheduled sources:
either no source is pending, or exactly the stored one with the 150 ms
interval; ids are below the allocation counter. -/
def SearchTimeoutInv (st : SearchTimeoutState) : Prop :=
  (st.delayed_changed_id = 0 → st.pending = []) ∧
  (st.delayed_changed_id ≠ 0 → st.pending = [(st.delayed_changed_id, DELAYED_TIMEOUT_ID)]) ∧
  0 < st.next_source_id ∧
  st.delayed_changed_id < st.next_source_id

/-! ## DPI scale factor: gtkimcontextime.c lines 5481-5525 -/

/-- The data _gdk_win32_surface_get_scale_factor reads from the surface and
the display. -/
structure ScaleEnv where
  destroyed : Bool          -- GDK_SURFACE_DESTROYED (surface)
  dpi_unaware : Bool        -- dpi_aware_type == PROCESS_DPI_UNAWARE
  has_fixed_scale : Bool
  display_surface_scale : Int
  monitor_scale_factor : Int  -- gdk_win32_display_get_monitor_scale_factor
  deriving DecidableEq, Repr

/-- Function _gdk_win32_surface_get_scale_factor (lines 5481-5525): returns
the scale factor and the new value of impl->surface_scale. -/
def gdk_win32_surface_get_scale_factor (env : ScaleEnv) (surface_scale : Int) :
    Int × Int :=
  if env.destroyed then (1, surface_scale)
  else if !env.dpi_unaware then
    let s := if env.has_fixed_scale then env.display_surface_scale
             else env.monitor_scale_factor
    (s, s)
  else
    (1, surface_scale)

/-! ## Window style bits: gtkimcontextime.c lines 2784-2983 -/

def WS_BORDER : Nat := 0x00800000
def WS_THICKFRAME : Nat := 0x00040000
def WS_CAPTION : Nat := 0x00C00000
def WS_SYSMENU : Nat := 0x00080000
def WS_MINIMIZEBOX : Nat := 0x00020000
def WS_MAXIMIZEBOX : Nat := 0x00010000
def WS_EX_TOPMOST : Nat := 0x00000008
def WS_EX_TRANSPARENT : Nat := 0x00000020
def WS_EX_TOOLWINDOW : Nat := 0x00000080
def WS_EX_LAYERED : Nat := 0x00080000

def GDK_DECOR_ALL : Nat := 1
def GDK_DECOR_BORDER : Nat := 2
def GDK_DECOR_RESIZEH : Nat := 4
def GDK_DECOR_TITLE : Nat := 8
def GDK_DECOR_MENU : Nat := 16
def GDK_DECOR_MINIMIZE : Nat := 32
def GDK_DECOR_MAXIMIZE : Nat := 64

/-- Function update_single_bit (lines 2784-2798).  `gdk_bit` is the C int
`decorations & GDK_DECOR_x`, truthy when nonzero. -/
def update_single_bit (style : Nat) (all : Bool) (gdk_bit : Nat) (style_bit : Nat) : Nat :=
  if (!all && gdk_bit ≠ 0) || (all && gdk_bit = 0) then style ||| style_bit
  else andNot style style_bit

/-- The data _gdk_win32_surface_update_style_bits reads from the window and
the Win32 API. -/
structure StyleEnv where
  fullscreen : Bool         -- window->state & GDK_TOPLEVEL_STATE_FULLSCREEN
  is_drag_surface : Bool    -- GDK_IS_DRAG_SURFACE (window)
  old_style : Nat           -- GetWindowLong (.., GWL_STYLE)
  old_exstyle : Nat         -- GetWindowLong (.., GWL_EXSTYLE)
  decorations : Option Nat  -- get_effective_window_decorations result
  deriving DecidableEq, Repr

/-- The Win32 window updates _gdk_win32_surface_update_style_bits performs. -/
inductive StyleAction where
  | setStyle (v : Nat)
  | setExstyle (v : Nat)
  | setLayeredAttributes
  | setWindowPos
  deriving DecidableEq, Repr

/-- The new extended style computed at lines 2885-2905: WS_EX_TOPMOST is
first cleared, then the tool-window and layering bits are adjusted. -/
def style_bits_new_exstyle (env : StyleEnv) : Nat :=
  let old_exstyle := andNot env.old_exstyle WS_EX_TOPMOST
  if env.is_drag_surface then
    (old_exstyle ||| WS_EX_TOOLWINDOW) ||| (WS_EX_LAYERED ||| WS_EX_TRANSPARENT)
  else
    andNot old_exstyle WS_EX_TOOLWINDOW

/-- The new style computed at lines 2907-2918 by the six update_single_bit
calls, when get_effective_window_decorations succeeded. -/
def style_bits_new_style (env : StyleEnv) : Nat :=
  match env.decorations with
  | none => env.old_style
  | some d =>
    let all := d &&& GDK_DECOR_ALL ≠ 0
    let s := update_single_bit env.old_style all (d &&& GDK_DECOR_BORDER) WS_BORDER
    let s := update_single_bit s all (d &&& GDK_DECOR_RESIZEH) WS_THICKFRAME
    let s := update_single_bit s all (d &&& GDK_DECOR_TITLE) WS_CAPTION
    let s := update_single_bit s all (d &&& GDK_DECOR_MENU) WS_SYSMENU
    let s := update_single_bit s all (d &&& GDK_DECOR_MINIMIZE) WS_MINIMIZEBOX
    update_single_bit s all (d &&& GDK_DECOR_MAXIMIZE) WS_MAXIMIZEBOX

/-- Function _gdk_win32_surface_update_style_bits (lines 2856-2983), as the
list of Win32 window updates it performs, in order. -/
def gdk_win32_surface_update_style_bits (env : StyleEnv) : List StyleAction :=
  if env.fullscreen then []
  else
    let old_style := env.old_style
    let was_topmost := env.old_exstyle &&& WS_EX_TOPMOST ≠ 0
    let was_layered := env.old_exstyle &&& WS_EX_LAYERED ≠ 0
    let will_be_topmost := if env.is_drag_surface then true else was_topmost
    let will_be_layered := if env.is_drag_surface then true else was_layered
    let old_exstyle := andNot env.old_exstyle WS_EX_TOPMOST
    let new_exstyle := style_bits_new_exstyle env
    let new_style := style_bits_new_style env
    if new_style = old_style ∧ new_exstyle = old_exstyle then []
    else
      (if old_style ≠ new_style then [StyleAction.setStyle new_style] else []) ++
      (if old_exstyle ≠ new_exstyle then
        StyleAction.setExstyle new_exstyle ::
          (if !was_layered && will_be_layered then [StyleAction.setLayeredAttributes] else [])
       else []) ++
      [StyleAction.setWindowPos]

/-! ## Aerosnap: gtkimcontextime.c lines 3167-3549 -/

/-- GdkWin32AeroSnapState. -/
inductive AeroSnapState where
  | undetermined
  | halfleft
  | halfright
  | fullup
  | maximize
  deriving DecidableEq, Repr

/-- GdkWin32AeroSnapCombo. -/
inductive AeroSnapCombo where
  | nothing
  | up
  | down
  | shiftdown
  | left
  | right
  | shiftup
  | shiftleft
  | shiftright
  deriving DecidableEq, Repr

/-- GdkRectangle. -/
structure GdkRect where
  x : Int
  y : Int
  width : Int
  height : Int
  deriving DecidableEq, Repr

/-- GdkRectangleDouble, with the doubles embedded as exact rationals. -/
structure GdkRectQ where
  x : ℚ
  y : ℚ
  width : ℚ
  height : ℚ
  deriving DecidableEq, Repr

/-- The per-surface state the snap code reads and writes.  `surf_x` and
`surf_width` are surface->x and gdk_surface_get_width; the toplevel state
bits used by the aerosnap handler are the two booleans. -/
structure Win32Surface where
  snap_state : AeroSnapState
  snap_stash : Option GdkRectQ
  snap_stash_int : Option GdkRect
  surface_scale : Int
  shadow_left : Int
  shadow_top : Int
  shadow_x : Int
  shadow_y : Int
  surf_x : Int
  surf_width : Int
  minimized : Bool
  maximized : Bool
  deriving DecidableEq, Repr

/-- The external data stash_window obtains from GetWindowPlacement
(rcNormalPosition) and GetMonitorInfoA (rcMonitor, rcWork), with the two
success flags of those calls. -/
structure StashEnv where
  placement_ok : Bool
  place_left : Int
  place_top : Int
  place_right : Int
  place_bottom : Int
  monitor_ok : Bool
  mon_left : Int
  mon_top : Int
  work_left : Int
  work_top : Int
  work_right : Int
  work_bottom : Int
  deriving DecidableEq, Repr

/-- The absolute (integer) geometry stash_window computes at lines
3310-3316: normal-placement size, and position relative to the monitor
area, all divided by the surface scale (C integer division). -/
def stash_abs (st : Win32Surface) (env : StashEnv) : GdkRect :=
  { x := Int.tdiv (env.place_left - env.mon_left) st.surface_scale,
    y := Int.tdiv (env.place_top - env.mon_top) st.surface_scale,
    width := Int.tdiv (env.place_right - env.place_left) st.surface_scale,
    height := Int.tdiv (env.place_bottom - env.place_top) st.surface_scale }

/-- The work-area size stash_window computes at lines 3315-3316. -/
def stash_workarea (st : Win32Surface) (env : StashEnv) : Int × Int :=
  (Int.tdiv (env.work_right - env.work_left) st.surface_scale,
   Int.tdiv (env.work_bottom - env.work_top) st.surface_scale)

/-- The relative geometry stash_window computes at lines 3318-3321: the
absolute geometry as a fraction of the monitor work area. -/
def stash_rel (st : Win32Surface) (env : StashEnv) : GdkRectQ :=
  let a := stash_abs st env
  let w := stash_workarea st env
  { x := (a.x : ℚ) / (w.1 : ℚ),
    y := (a.y : ℚ) / (w.2 : ℚ),
    width := (a.width : ℚ) / (w.1 : ℚ),
    height := (a.height : ℚ) / (w.2 : ℚ) }

/-- Function stash_window (lines 3260-3331): on success of both Win32
queries, overwrites both stash slots with the freshly computed geometry. -/
def stash_window (st : Win32Surface) (env : StashEnv) : Win32Surface :=
  if !env.placement_ok then st
  else if !env.monitor_ok then st
  else
    { st with
      snap_stash := some (stash_rel st env),
      snap_stash_int := some (stash_abs st env) }

/-- Function discard_snapinfo (lines 3167-3181).  In the source the two
stash pointers are always both set or both NULL; clearing both matches the
code on every reachable state. -/
def discard_snapinfo (st : Win32Surface) : Win32Surface :=
  { st with
    snap_state := AeroSnapState.undetermined,
    snap_stash := none,
    snap_stash_int := none }

/-- The horizontal placement factor computed at lines 3211-3221 of unsnap,
from the stashed left and right margin ratios. -/
def unsnap_hscale (stash : GdkRectQ) : ℚ :=
  let left : ℚ := stash.x
  let right : ℚ := 1 - (stash.x + stash.width)
  if right > 1/1000 then (left / right) / (1 + left / right) else 1

/-- The vertical placement factor computed at lines 3225-3231 of unsnap. -/
def unsnap_vscale (stash : GdkRectQ) : ℚ :=
  let up : ℚ := stash.y
  let down : ℚ := 1 - (stash.y + stash.height)
  if down > 1/1000 then (up / down) / (1 + up / down) else 1

/-- Function unsnap (lines 3183-3258): resets the snap state and, when a
stash is present, restores the stashed geometry (exactly if it fits into
the monitor work area, scaled otherwise) through
gdk_win32_surface_move_resize, whose rectangle is returned. -/
def unsnap (st : Win32Surface) (workarea : GdkRect) : Win32Surface × Option GdkRect :=
  let st1 := { st with snap_state := AeroSnapState.undetermined }
  match st.snap_stash, st.snap_stash_int with
  | some stash, some stash_int =>
    let rect := workarea
    let rect :=
      if rect.width ≥ stash_int.width ∧ rect.height ≥ stash_int.height then
        let hscale : ℚ := unsnap_hscale stash
        let new_left : ℚ := ((rect.width - stash_int.width : Int) : ℚ) * hscale
        let vscale : ℚ := unsnap_vscale stash
        let new_up : ℚ := ((rect.height - stash_int.height : Int) : ℚ) * vscale
        { x := cround ((rect.x : ℚ) + new_left),
          y := cround ((rect.y : ℚ) + new_up),
          width := stash_int.width,
          height := stash_int.height }
      else
        { x := rect.x + cround ((rect.width : ℚ) * stash.x),
          y := rect.y + cround ((rect.height : ℚ) * stash.y),
          width := cround ((rect.width : ℚ) * stash.width),
          height := cround ((rect.height : ℚ) * stash.height) }
    ({ st1 with snap_stash := none, snap_stash_int := none }, some rect)
  | _, _ => (st1, none)

/-- The environment of the snap operations: the stash inputs, the monitor
list of the display, the work area of each monitor
(gdk_win32_monitor_get_workarea), the primary monitor, the monitor the
surface is on, and GetSystemMetrics (SM_CYVIRTUALSCREEN). -/
structure SnapEnv where
  stash : StashEnv
  monitors : List Nat
  workarea : Nat → GdkRect
  primary_monitor : Nat
  monitor_at_surface : Nat
  cy_virtual_screen : Int

/-- Conversion to the C SHORT type (two's-complement wrap to 16 bits),
applied by snap_up when it narrows GetSystemMetrics' result. -/
def toShort (n : Int) : Int := (n + 2 ^ 15) % 2 ^ 16 - 2 ^ 15

/-- Function snap_left (lines 3362-3388): the new surface state and the
rectangle passed to gdk_win32_surface_move_resize. -/
def snap_left (st : Win32Surface) (env : SnapEnv) (monitor snap_monitor : Nat) :
    Win32Surface × GdkRect :=
  let st := { st with snap_state := AeroSnapState.halfleft }
  let rect := env.workarea snap_monitor
  let st := stash_window st env.stash
  let rect := { rect with width := Int.tdiv rect.width 2 }
  (st,
   { x := rect.x - Int.tdiv st.shadow_left st.surface_scale,
     y := rect.y - Int.tdiv st.shadow_top st.surface_scale,
     width := rect.width + st.shadow_x,
     height := rect.height + st.shadow_y })

/-- Function snap_right (lines 3390-3417). -/
def snap_right (st : Win32Surface) (env : SnapEnv) (monitor snap_monitor : Nat) :
    Win32Surface × GdkRect :=
  let st := { st with snap_state := AeroSnapState.halfright }
  let rect := env.workarea snap_monitor
  let st := stash_window st env.stash
  let rect := { rect with width := Int.tdiv rect.width 2 }
  let rect := { rect with x := rect.x + rect.width }
  (st,
   { x := rect.x - Int.tdiv st.shadow_left st.surface_scale,
     y := rect.y - Int.tdiv st.shadow_top st.surface_scale,
     width := rect.width + st.shadow_x,
     height := rect.height + st.shadow_y })

/-- Function snap_up (lines 3333-3360). -/
def snap_up (st : Win32Surface) (env : SnapEnv) : Win32Surface × GdkRect :=
  let st := { st with snap_state := AeroSnapState.fullup }
  let st := stash_window st env.stash
  let maxysize := toShort (Int.tdiv env.cy_virtual_screen st.surface_scale)
  let width := st.surf_width
  let height := maxysize
  let x := st.surf_x - Int.tdiv st.shadow_left st.surface_scale
  let y := (0 : Int) - Int.tdiv st.shadow_top st.surface_scale
  (st, { x := x, y := y, width := width + st.shadow_x, height := height + st.shadow_y })

/-- The snap operations _gdk_win32_surface_handle_aerosnap invokes, in call
order.  Maximize, unmaximize and minimize go through the window manager and
are recorded as actions only. -/
inductive SnapAction where
  | actUnsnap
  | actMaximize
  | actUnmaximize
  | actMinimize
  | actSnapLeft (monitor : Nat)
  | actSnapRight (monitor : Nat)
  | actSnapUp
  deriving DecidableEq, Repr

/-- The halfsnapped test at lines 3449-3451. -/
def halfsnapped (st : Win32Surface) : Bool :=
  st.snap_state = AeroSnapState.halfright ∨
  st.snap_state = AeroSnapState.halfleft ∨
  st.snap_state = AeroSnapState.fullup

/-- Function _gdk_win32_surface_handle_aerosnap (lines 3426-3549): the new
surface state and the operations performed, in order. -/
def gdk_win32_surface_handle_aerosnap (st : Win32Surface) (env : SnapEnv)
    (combo : AeroSnapCombo) : Win32Surface × List SnapAction :=
  let n_monitors := env.monitors.length
  let monitor := env.monitor_at_surface
  let minimized := if st.minimized && st.maximized then false else st.minimized
  let maximized := st.maximized
  match combo with
  | AeroSnapCombo.nothing => (st, [])
  | AeroSnapCombo.up =>
    if !maximized then
      let (st1, _) := unsnap st (env.workarea monitor)
      (st1, [SnapAction.actUnsnap, SnapAction.actMaximize])
    else (st, [])
  | AeroSnapCombo.down | AeroSnapCombo.shiftdown =>
    if maximized then
      let (st1, _) := unsnap st (env.workarea monitor)
      (st1, [SnapAction.actUnmaximize, SnapAction.actUnsnap])
    else if halfsnapped st then
      let (st1, _) := unsnap st (env.workarea monitor)
      (st1, [SnapAction.actUnsnap])
    else if !minimized then (st, [SnapAction.actMinimize])
    else (st, [])
  | AeroSnapCombo.left =>
    let pre : List SnapAction := if maximized then [SnapAction.actUnmaximize] else []
    if st.snap_state = AeroSnapState.undetermined ∨ st.snap_state = AeroSnapState.fullup then
      let (st1, _) := unsnap st (env.workarea monitor)
      let (st2, _) := snap_left st1 env monitor monitor
      (st2, pre ++ [SnapAction.actUnsnap, SnapAction.actSnapLeft monitor])
    else if st.snap_state = AeroSnapState.halfleft then
      let (st1, _) := unsnap st (env.workarea monitor)
      let other := if env.primary_monitor = monitor then monitor
                   else env.monitors.getD (n_monitors - 1) 0
      let (st2, _) := snap_right st1 env monitor other
      (st2, pre ++ [SnapAction.actUnsnap, SnapAction.actSnapRight other])
    else if st.snap_state = AeroSnapState.halfright then
      let (st1, _) := unsnap st (env.workarea monitor)
      (st1, pre ++ [SnapAction.actUnsnap])
    else (st, pre)
  | AeroSnapCombo.right =>
    let pre : List SnapAction := if maximized then [SnapAction.actUnmaximize] else []
    if st.snap_state = AeroSnapState.undetermined ∨ st.snap_state = AeroSnapState.fullup then
      let (st1, _) := unsnap st (env.workarea monitor)
      let (st2, _) := snap_right st1 env monitor monitor
      (st2, pre ++ [SnapAction.actUnsnap, SnapAction.actSnapRight monitor])
    else if st.snap_state = AeroSnapState.halfleft then
      let (st1, _) := unsnap st (env.workarea monitor)
      (st1, pre ++ [SnapAction.actUnsnap])
    else if st.snap_state = AeroSnapState.halfright then
      let (st1, _) := unsnap st (env.workarea monitor)
      let i := env.monitors.indexOf monitor
      let other := env.monitors.getD ((i + 1) % n_monitors) 0
      let (st2, _) := snap_left st1 env monitor other
      (st2, pre ++ [SnapAction.actUnsnap, SnapAction.actSnapLeft other])
    else (st, pre)
  | AeroSnapCombo.shiftup =>
    if !maximized ∧ st.snap_state = AeroSnapState.undetermined then
      let (st1, _) := snap_up st env
      (st1, [SnapAction.actSnapUp])
    else (st, [])
  | AeroSnapCombo.shiftleft | AeroSnapCombo.shiftright => (st, [])

/-! ## Helper lemmas -/

theorem gdk_modal_blocked_loop_eq (mapped : Nat → Bool) (l : List Nat) (w : Nat) (f : Bool) :
    gdk_modal_blocked_loop mapped l w f = if w ∈ l then false else (f || l.any mapped) := by
  induction l generalizing f with
  | nil => simp [gdk_modal_blocked_loop]
  | cons a rest ih =>
    simp only [gdk_modal_blocked_loop]
    by_cases h : a = w
    · simp [h]
    · rw [ih]
      by_cases hw : w ∈ rest <;>
        simp [h, hw, List.mem_cons, Ne.symm h, Bool.or_assoc]

theorem modal_stack_foldl_eq (ps acc : List Nat) :
    ps.foldl gdk_push_modal_window acc = ps.reverse ++ acc := by
  induction ps generalizing acc with
  | nil => simp
  | cons a rest ih => simp [List.foldl_cons, ih, gdk_push_modal_window]

theorem gdk_modal_current_eq_find (mapped : Nat → Bool) (l : List Nat) :
    gdk_modal_current mapped l = l.find? mapped := by
  induction l with
  | nil => rfl
  | cons a rest ih =>
    simp only [gdk_modal_current, List.find?]
    by_cases h : mapped a <;> simp [h, ih]

theorem lor_and_self (s m : Nat) : (s ||| m) &&& m = m := by
  apply Nat.eq_of_testBit_eq
  intro i
  simp [Nat.testBit_land, Nat.testBit_lor]
  by_cases h : m.testBit i <;> simp [h]

theorem andNot_and_self (s m : Nat) : andNot s m &&& m = 0 := by
  apply Nat.eq_of_testBit_eq
  intro i
  simp [andNot, Nat.testBit_land, Nat.testBit_xor]

theorem lor_andNot_outside (s m : Nat) : andNot (s ||| m) m = andNot s m := by
  apply Nat.eq_of_testBit_eq
  intro i
  simp [andNot, Nat.testBit_land, Nat.testBit_lor, Nat.testBit_xor]
  by_cases h : m.testBit i <;> by_cases h2 : s.testBit i <;> simp [h, h2]

theorem andNot_idem (s m : Nat) : andNot (andNot s m) m = andNot s m := by
  apply Nat.eq_of_testBit_eq
  intro i
  simp [andNot, Nat.testBit_land, Nat.testBit_xor]
  by_cases h : m.testBit i <;> by_cases h2 : s.testBit i <;> simp [h, h2]

theorem andNot_eq_self_of_and_eq_zero (a m : Nat) (h : a &&& m = 0) : andNot a m = a := by
  simp [andNot, h]

theorem and_eq_zero_of_lor (a b m : Nat) (ha : a &&& m = 0) (hb : b &&& m = 0) :
    (a ||| b) &&& m = 0 := by
  apply Nat.eq_of_testBit_eq
  intro i
  have ha' := congrArg (fun n => n.testBit i) ha
  have hb' := congrArg (fun n => n.testBit i) hb
  simp [Nat.testBit_land, Nat.testBit_lor] at ha' hb' ⊢
  tauto

theorem andNot_and_eq_zero (a b m : Nat) (h : a &&& m = 0) : andNot a b &&& m = 0 := by
  apply Nat.eq_of_testBit_eq
  intro i
  have h' := congrArg (fun n => n.testBit i) h
  simp [andNot, Nat.testBit_land, Nat.testBit_xor] at h' ⊢
  tauto

/-- The recomputed extended style never carries WS_EX_TOPMOST: it starts
from the old extended style with that bit cleared and only adjusts other
bits. -/
theorem style_bits_new_exstyle_topmost_clear (env : StyleEnv) :
    style_bits_new_exstyle env &&& WS_EX_TOPMOST = 0 := by
  unfold style_bits_new_exstyle
  by_cases hd : env.is_drag_surface
  · simp only [hd, if_true]
    apply and_eq_zero_of_lor
    · apply and_eq_zero_of_lor
      · exact andNot_and_self _ _
      · decide
    · decide
  · simp only [hd, if_false]
    exact andNot_and_eq_zero _ _ _ (andNot_and_self _ _)

theorem stash_window_snap_state (st : Win32Surface) (env : StashEnv) :
    (stash_window st env).snap_state = st.snap_state := by
  unfold stash_window
  split
  · rfl
  · split <;> rfl

theorem stash_window_sets_stash (st : Win32Surface) (env : StashEnv)
    (hp : env.placement_ok = true) (hm : env.monitor_ok = true) :
    stash_window st env =
      { st with
        snap_stash := some (stash_rel st env),
        snap_stash_int := some (stash_abs st env) } := by
  simp [stash_window, hp, hm]

/-! ## Claim theorems -/

/-- Claim C7: _gdk_modal_blocked returns FALSE for every surface on the
modal window stack, regardless of other mapped modal surfaces; for a
surface not on the stack it returns TRUE iff the stack holds at least one
mapped surface; and _gdk_modal_current returns the most recently pushed
mapped modal surface (the first mapped one of the stack built by prepending
pushes), or NULL when no surface on the stack is mapped. -/
theorem modal_blocked_and_current_spec (mapped : Nat → Bool) (stack : List Nat)
    (w : Nat) (pushes : List Nat) :
    (w ∈ stack → gdk_modal_blocked mapped stack w = false) ∧
    (w ∉ stack → (gdk_modal_blocked mapped stack w = true ↔ ∃ m ∈ stack, mapped m = true)) ∧
    gdk_modal_current mapped (modal_stack_of_pushes pushes) = pushes.reverse.find? mapped ∧
    (gdk_modal_current mapped stack = none ↔ ∀ m ∈ stack, mapped m = false) := by
  refine ⟨?_, ?_, ?_, ?_⟩
  · intro hmem
    simp [gdk_modal_blocked, gdk_modal_blocked_loop_eq, hmem]
  · intro hmem
    simp [gdk_modal_blocked, gdk_modal_blocked_loop_eq, hmem, List.any_eq_true]
  · rw [modal_stack_of_pushes, modal_stack_foldl_eq, List.append_nil,
      gdk_modal_current_eq_find]
  · rw [gdk_modal_current_eq_find, List.find?_eq_none]
    simp

/-- Closed instance of modal_blocked_and_current_spec discharging both
membership hypotheses at the stack [1, 2, 3]. -/
theorem modal_blocked_and_current_spec_witness :
    gdk_modal_blocked (fun n => n == 2) [1, 2, 3] 2 = false ∧
    (gdk_modal_blocked (fun n => n == 2) [1, 2, 3] 5 = true ↔
      ∃ m ∈ [1, 2, 3], (fun n => n == 2) m = true) := by
  constructor
  · exact (modal_blocked_and_current_spec (fun n => n == 2) [1, 2, 3] 2 []).1 (by simp)
  · exact (modal_blocked_and_current_spec (fun n => n == 2) [1, 2, 3] 5 []).2.1 (by simp)

/-- Claim C4: _gdk_win32_surface_get_scale_factor returns 1 for a destroyed
surface, returns 1 without touching the cached surface_scale when the
process is DPI-unaware, and otherwise returns the display's fixed scale
when one is configured or else the per-monitor scale factor, storing the
returned value into the surface's surface_scale field. -/
theorem gdk_win32_surface_get_scale_factor_spec (env : ScaleEnv) (surface_scale : Int) :
    (env.destroyed = true →
      gdk_win32_surface_get_scale_factor env surface_scale = (1, surface_scale)) ∧
    (env.destroyed = false → env.dpi_unaware = true →
      gdk_win32_surface_get_scale_factor env surface_scale = (1, surface_scale)) ∧
    (env.destroyed = false → env.dpi_unaware = false → env.has_fixed_scale = true →
      gdk_win32_surface_get_scale_factor env surface_scale =
        (env.display_surface_scale, env.display_surface_scale)) ∧
    (env.destroyed = false → env.dpi_unaware = false → env.has_fixed_scale = false →
      gdk_win32_surface_get_scale_factor env surface_scale =
        (env.monitor_scale_factor, env.monitor_scale_factor)) := by
  refine ⟨?_, ?_, ?_, ?_⟩ <;> intros <;>
    simp_all [gdk_win32_surface_get_scale_factor]

/-- Closed instance of gdk_win32_surface_get_scale_factor_spec at concrete
environments covering all four branches. -/
theorem gdk_win32_surface_get_scale_factor_spec_witness :
    gdk_win32_surface_get_scale_factor
      { destroyed := true, dpi_unaware := false, has_fixed_scale := false,
        display_surface_scale := 2, monitor_scale_factor := 3 } 7 = (1, 7) ∧
    gdk_win32_surface_get_scale_factor
      { destroyed := false, dpi_unaware := true, has_fixed_scale := true,
        display_surface_scale := 2, monitor_scale_factor := 3 } 7 = (1, 7) ∧
    gdk_win32_surface_get_scale_factor
      { destroyed := false, dpi_unaware := false, has_fixed_scale := true,
        display_surface_scale := 2, monitor_scale_factor := 3 } 7 = (2, 2) ∧
    gdk_win32_surface_get_scale_factor
      { destroyed := false, dpi_unaware := false, has_fixed_scale := false,
        display_surface_scale := 2, monitor_scale_factor := 3 } 7 = (3, 3) :=
  ⟨(gdk_win32_surface_get_scale_factor_spec _ 7).1 rfl,
   (gdk_win32_surface_get_scale_factor_spec _ 7).2.1 rfl rfl,
   (gdk_win32_surface_get_scale_factor_spec _ 7).2.2.1 rfl rfl rfl,
   (gdk_win32_surface_get_scale_factor_spec _ 7).2.2.2 rfl rfl rfl⟩

/-- Claim C6: the search entry's editable delegate is always the internal
text widget created at initialization (the one gtk_text_new returns inside
gtk_search_entry_init), gtk_search_entry_get_text_widget returns that same
widget, and reads and writes of the entry text go through it: a read reads
the internal widget's text, a write updates it and touches no other
widget. -/
theorem gtk_search_entry_delegation_spec (h h2 : WidgetHeap) (s : String) (i : Nat) :
    gtk_search_entry_get_delegate (gtk_search_entry_init h).1 =
      ((gtk_search_entry_init h).1).entry ∧
    gtk_search_entry_get_text_widget (gtk_search_entry_init h).1 =
      gtk_search_entry_get_delegate (gtk_search_entry_init h).1 ∧
    ((gtk_search_entry_init h).1).entry = (gtk_text_new (gtk_image_new h).2).1 ∧
    gtk_editable_get_text h2 (gtk_search_entry_init h).1 =
      h2.text_of ((gtk_search_entry_init h).1).entry ∧
    gtk_editable_get_text
      (gtk_editable_set_text h2 (gtk_search_entry_init h).1 s)
      (gtk_search_entry_init h).1 = s ∧
    (i ≠ ((gtk_search_entry_init h).1).entry →
      (gtk_editable_set_text h2 (gtk_search_entry_init h).1 s).text_of i =
        h2.text_of i) := by
  refine ⟨rfl, rfl, rfl, rfl, by simp [gtk_editable_get_text, gtk_editable_set_text], ?_⟩
  intro hi
  simp [gtk_editable_set_text, gtk_search_entry_get_delegate, hi]

/-- Closed instance of gtk_search_entry_delegation_spec discharging its
widget-distinctness hypothesis at a concrete heap. -/
theorem gtk_search_entry_delegation_spec_witness :
    (gtk_editable_set_text
        { next_id := 10, text_of := fun _ => "" }
        (gtk_search_entry_init { next_id := 0, text_of := fun _ => "" }).1
        "abc").text_of 0 = "" :=
  (gtk_search_entry_delegation_spec
      { next_id := 0, text_of := fun _ => "" }
      { next_id := 10, text_of := fun _ => "" } "abc" 0).2.2.2.2.2 (by decide)

/-- Claim C8: under the invariant tying the stored id to the scheduled
sources, a change to non-empty text cancels any pending delayed timeout and
schedules exactly one new 150 ms timeout without emitting; a change to
empty text cancels the pending timeout, zeroes the stored id and emits
search-changed immediately; firing the delayed timeout emits once and
zeroes the stored id; the invariant is preserved throughout, and it bounds
the pending sources of the entry by one. -/
theorem search_changed_timeout_spec (st : SearchTimeoutState) (hInv : SearchTimeoutInv st) :
    (SearchTimeoutInv (gtk_search_entry_changed st false) ∧
     (gtk_search_entry_changed st false).pending =
        [((gtk_search_entry_changed st false).delayed_changed_id, DELAYED_TIMEOUT_ID)] ∧
     (gtk_search_entry_changed st false).delayed_changed_id ≠ 0 ∧
     (gtk_search_entry_changed st false).search_changed_emissions =
        st.search_changed_emissions) ∧
    (SearchTimeoutInv (gtk_search_entry_changed st true) ∧
     (gtk_search_entry_changed st true).pending = [] ∧
     (gtk_search_entry_changed st true).delayed_changed_id = 0 ∧
     (gtk_search_entry_changed st true).search_changed_emissions =
        st.search_changed_emissions + 1) ∧
    (st.delayed_changed_id ≠ 0 →
      SearchTimeoutInv (fire_timeout st.delayed_changed_id st) ∧
      (fire_timeout st.delayed_changed_id st).pending = [] ∧
      (fire_timeout st.delayed_changed_id st).delayed_changed_id = 0 ∧
      (fire_timeout st.delayed_changed_id st).search_changed_emissions =
        st.search_changed_emissions + 1) ∧
    st.pending.length ≤ 1 := by
  obtain ⟨h0, h1, hpos, hlt⟩ := hInv
  refine ⟨?_, ?_, ?_, ?_⟩
  · by_cases hd : st.delayed_changed_id = 0
    · have hp := h0 hd
      simp [gtk_search_entry_changed, reset_timeout, g_timeout_add, g_source_remove,
        SearchTimeoutInv, hd, hp]
      omega
    · have hd' : st.delayed_changed_id > 0 := Nat.pos_of_ne_zero hd
      have hp := h1 hd
      simp [gtk_search_entry_changed, reset_timeout, g_timeout_add, g_source_remove,
        SearchTimeoutInv, hd', hp]
      omega
  · by_cases hd : st.delayed_changed_id = 0
    · have hp := h0 hd
      simp [gtk_search_entry_changed, g_source_remove, SearchTimeoutInv, hd, hp]
      omega
    · have hd' : st.delayed_changed_id > 0 := Nat.pos_of_ne_zero hd
      have hp := h1 hd
      simp [gtk_search_entry_changed, g_source_remove, SearchTimeoutInv, hd', hp]
      omega
  · intro hd
    have hp := h1 hd
    simp [fire_timeout, hp, gtk_search_entry_changed_timeout_cb, g_source_remove,
      SearchTimeoutInv]
    omega
  · by_cases hd : st.delayed_changed_id = 0
    · simp [h0 hd]
    · simp [h1 hd]

/-- Closed instance of search_changed_timeout_spec discharging the
invariant hypothesis (and the pending-timeout hypothesis of the firing
part) at a concrete entry state with one scheduled timeout. -/
theorem search_changed_timeout_spec_witness :
    (gtk_search_entry_changed
        { delayed_changed_id := 1, pending := [(1, 150)], next_source_id := 2,
          search_changed_emissions := 0, icon_visible := true } true).pending = [] ∧
    (fire_timeout 1
        { delayed_changed_id := 1, pending := [(1, 150)], next_source_id := 2,
          search_changed_emissions := 0, icon_visible := true }).search_changed_emissions
      = 1 := by
  have hInv : SearchTimeoutInv
      { delayed_changed_id := 1, pending := [(1, 150)], next_source_id := 2,
        search_changed_emissions := 0, icon_visible := true } :=
    ⟨by simp, by simp [DELAYED_TIMEOUT_ID], by norm_num, by norm_num⟩
  exact ⟨(search_changed_timeout_spec _ hInv).2.1.2.1,
         ((search_changed_timeout_spec _ hInv).2.2.1 (by norm_num)).2.2.2⟩

/-- Claim C3: update_single_bit sets the native style bit iff either the
ALL flag is clear and the decoration bit is set, or the ALL flag is set and
the decoration bit is clear (leaving all other style bits unchanged);
_gdk_win32_surface_update_style_bits performs no Win32 window update for a
fullscreen window, and none when the recomputed style and extended style
both equal the values read from the window. -/
theorem update_style_bits_spec (style : Nat) (all : Bool) (g m : Nat) (env : StyleEnv) :
    (update_single_bit style all g m &&& m =
       if (all = false ∧ g ≠ 0) ∨ (all = true ∧ g = 0) then m else 0) ∧
    andNot (update_single_bit style all g m) m = andNot style m ∧
    (env.fullscreen = true → gdk_win32_surface_update_style_bits env = []) ∧
    (env.fullscreen = false →
      style_bits_new_style env = env.old_style →
      style_bits_new_exstyle env = env.old_exstyle →
      gdk_win32_surface_update_style_bits env = []) := by
  refine ⟨?_, ?_, ?_, ?_⟩
  · unfold update_single_bit
    by_cases ha : all <;> by_cases hg : g = 0 <;>
      simp [ha, hg, lor_and_self, andNot_and_self]
  · unfold update_single_bit
    by_cases ha : all <;> by_cases hg : g = 0 <;>
      simp [ha, hg, lor_andNot_outside, andNot_idem]
  · intro hfull
    simp [gdk_win32_surface_update_style_bits, hfull]
  · intro hfull hns hne
    have hz : env.old_exstyle &&& WS_EX_TOPMOST = 0 := by
      rw [← hne]; exact style_bits_new_exstyle_topmost_clear env
    have hm : andNot env.old_exstyle WS_EX_TOPMOST = env.old_exstyle :=
      andNot_eq_self_of_and_eq_zero _ _ hz
    simp [gdk_win32_surface_update_style_bits, hfull, hm, hns, hne]

/-- Closed instance of update_style_bits_spec: the fullscreen early return,
and the no-change return at an environment whose recomputed styles coincide
with the current ones. -/
theorem update_style_bits_spec_witness :
    gdk_win32_surface_update_style_bits
      { fullscreen := true, is_drag_surface := false, old_style := 5,
        old_exstyle := 9, decorations := some 3 } = [] ∧
    gdk_win32_surface_update_style_bits
      { fullscreen := false, is_drag_surface := false, old_style := 5,
        old_exstyle := 0, decorations := none } = [] :=
  ⟨(update_style_bits_spec 0 false 0 0 _).2.2.1 rfl,
   (update_style_bits_spec 0 false 0 0 _).2.2.2 rfl (by decide) (by decide)⟩

/-- Refutation of claim C5 as stated: with a dead key pending (here
dead_grave), a key press whose keyval maps to the printable character 'a'
emits one commit, but it carries the composed character U+00E0 in UTF-8
([0xc3, 0xa0]), not 'a' itself ([0x61]). -/
theorem filter_keypress_printable_counterexample :
    (ImeEnv.mk (fun k => if k = 0x61 then 0x61 else 0)
        (fun a b => if a = 0x61 ∧ b = 0x300 then 0xe0 else a)).keyval_to_unicode 0x61
      = 0x61 ∧
    g_unichar_iscntrl 0x61 = false ∧
    gtk_im_context_ime_filter_keypress
      (ImeEnv.mk (fun k => if k = 0x61 then 0x61 else 0)
        (fun a b => if a = 0x61 ∧ b = 0x300 then 0xe0 else a))
      (ImeState.mk true true 0xfe50)
      (KeyEvent.mk false 0 0 0x61) =
      (true, ImeState.mk true true 0, [[0xc3, 0xa0]]) ∧
    [[0xc3, 0xa0]] ≠ [g_unichar_to_utf8 0x61] := by
  refine ⟨rfl, rfl, ?_, by decide⟩
  decide

/-- Claim C5, amended by the counterexample: filter_keypress returns FALSE
for every key-release event, for every event carrying an unconsumed
Control or Alt modifier, without focus, and without a client surface; and
for a key press with no pending dead key whose keyval maps to a printable
(non-control) character it emits exactly one commit signal carrying that
character encoded in UTF-8 and returns TRUE. -/
theorem gtk_im_context_ime_filter_keypress_spec (env : ImeEnv) (st : ImeState)
    (ev : KeyEvent) :
    (ev.is_release = true →
      gtk_im_context_ime_filter_keypress env st ev = (false, st, [])) ∧
    (andNot (ev.state &&& (GDK_ALT_MASK ||| GDK_CONTROL_MASK)) ev.consumed_modifiers ≠ 0 →
      gtk_im_context_ime_filter_keypress env st ev = (false, st, [])) ∧
    (st.focus = false →
      gtk_im_context_ime_filter_keypress env st ev = (false, st, [])) ∧
    (st.has_client_surface = false →
      gtk_im_context_ime_filter_keypress env st ev = (false, st, [])) ∧
    (ev.is_release = false →
     andNot (ev.state &&& (GDK_ALT_MASK ||| GDK_CONTROL_MASK)) ev.consumed_modifiers = 0 →
     st.focus = true → st.has_client_surface = true → st.dead_key_keyval = 0 →
     env.keyval_to_unicode ev.keyval ≠ 0 →
     g_unichar_iscntrl (env.keyval_to_unicode ev.keyval) = false →
     gtk_im_context_ime_filter_keypress env st ev =
       (true, st, [g_unichar_to_utf8 (env.keyval_to_unicode ev.keyval)])) := by
  refine ⟨?_, ?_, ?_, ?_, ?_⟩
  · intro h
    simp [gtk_im_context_ime_filter_keypress, h]
  · intro h
    by_cases hr : ev.is_release <;>
      simp [gtk_im_context_ime_filter_keypress, h, hr]
  · intro h
    by_cases hr : ev.is_release <;>
      by_cases hm : andNot (ev.state &&& (GDK_ALT_MASK ||| GDK_CONTROL_MASK))
        ev.consumed_modifiers = 0 <;>
      simp [gtk_im_context_ime_filter_keypress, h, hr, hm]
  · intro h
    by_cases hr : ev.is_release <;>
      by_cases hm : andNot (ev.state &&& (GDK_ALT_MASK ||| GDK_CONTROL_MASK))
        ev.consumed_modifiers = 0 <;>
      by_cases hf : st.focus <;>
      simp [gtk_im_context_ime_filter_keypress, h, hr, hm, hf]
  · intro hr hm hf hc hd hk hcntrl
    obtain ⟨f, cs, d⟩ := st
    simp only at hf hc hd
    subst hf; subst hc; subst hd
    simp [gtk_im_context_ime_filter_keypress, gtk_im_context_ime_commit_unichar,
      hr, hm, hk, hcntrl]

/-- Closed instance of gtk_im_context_ime_filter_keypress_spec: a press of
'a' with no pending dead key commits exactly the UTF-8 encoding of 'a' and
returns TRUE. -/
theorem gtk_im_context_ime_filter_keypress_spec_witness :
    gtk_im_context_ime_filter_keypress
      (ImeEnv.mk (fun k => if k = 0x61 then 0x61 else 0) (fun a _ => a))
      (ImeState.mk true true 0)
      (KeyEvent.mk false 0 0 0x61) =
      (true, ImeState.mk true true 0,
       [g_unichar_to_utf8
         ((ImeEnv.mk (fun k => if k = 0x61 then 0x61 else 0) (fun a _ => a)).keyval_to_unicode
           0x61)]) :=
  (gtk_im_context_ime_filter_keypress_spec
      (ImeEnv.mk (fun k => if k = 0x61 then 0x61 else 0) (fun a _ => a))
      (ImeState.mk true true 0)
      (KeyEvent.mk false 0 0 0x61)).2.2.2.2
    rfl (by decide) rfl rfl rfl (by decide) (by decide)

/-- Claim C9: every commit clears the pending dead key; with a dead key
pending the committed character is composed with that dead key's combining
character; and a dead-key press other than a repeat of the pending one
records its keyval as pending and returns FALSE without committing. -/
theorem commit_unichar_dead_key_spec (env : ImeEnv) (st : ImeState) (c : Nat)
    (ev : KeyEvent) :
    (gtk_im_context_ime_commit_unichar env st c).1.dead_key_keyval = 0 ∧
    (st.dead_key_keyval ≠ 0 →
      (gtk_im_context_ime_commit_unichar env st c).2 =
        [g_unichar_to_utf8
          (env.unichar_compose c
            (gtk_im_context_ime_dead_key_unichar st.dead_key_keyval false))]) ∧
    (ev.is_release = false →
     andNot (ev.state &&& (GDK_ALT_MASK ||| GDK_CONTROL_MASK)) ev.consumed_modifiers = 0 →
     st.focus = true → st.has_client_surface = true →
     env.keyval_to_unicode ev.keyval = 0 →
     IS_DEAD_KEY ev.keyval = true →
     ev.keyval ≠ st.dead_key_keyval →
     gtk_im_context_ime_filter_keypress env st ev =
       (false, { st with dead_key_keyval := ev.keyval }, [])) := by
  refine ⟨rfl, ?_, ?_⟩
  · intro h
    simp [gtk_im_context_ime_commit_unichar, h]
  · intro hr hm hf hc hk hdead hne
    have hspace : ev.keyval ≠ GDK_KEY_space := by
      have := hdead
      unfold IS_DEAD_KEY GDK_KEY_dead_grave GDK_KEY_dead_dasia at this
      simp at this
      unfold GDK_KEY_space
      omega
    simp [gtk_im_context_ime_filter_keypress, hr, hm, hf, hc, hk, hdead, hne, hspace]

/-- Closed instance of commit_unichar_dead_key_spec: a commit of 'a' with
dead_acute pending emits the composed character, and a press of dead_grave
while dead_acute is pending records dead_grave as the new pending dead
key. -/
theorem commit_unichar_dead_key_spec_witness :
    (gtk_im_context_ime_commit_unichar
        (ImeEnv.mk (fun _ => 0) (fun a b => if a = 0x61 ∧ b = 0x301 then 0xe1 else a))
        (ImeState.mk true true 0xfe51) 0x61).2 =
      [g_unichar_to_utf8
        ((ImeEnv.mk (fun _ => 0)
            (fun a b => if a = 0x61 ∧ b = 0x301 then 0xe1 else a)).unichar_compose 0x61
          (gtk_im_context_ime_dead_key_unichar 0xfe51 false))] ∧
    gtk_im_context_ime_filter_keypress
        (ImeEnv.mk (fun _ => 0) (fun a b => if a = 0x61 ∧ b = 0x301 then 0xe1 else a))
        (ImeState.mk true true 0xfe51)
        (KeyEvent.mk false 0 0 0xfe50) =
      (false, ImeState.mk true true 0xfe50, []) :=
  ⟨(commit_unichar_dead_key_spec
      (ImeEnv.mk (fun _ => 0) (fun a b => if a = 0x61 ∧ b = 0x301 then 0xe1 else a))
      (ImeState.mk true true 0xfe51) 0x61
      (KeyEvent.mk false 0 0 0xfe50)).2.1 (by decide),
   (commit_unichar_dead_key_spec
      (ImeEnv.mk (fun _ => 0) (fun a b => if a = 0x61 ∧ b = 0x301 then 0xe1 else a))
      (ImeState.mk true true 0xfe51) 0x61
      (KeyEvent.mk false 0 0 0xfe50)).2.2
     rfl (by decide) rfl rfl rfl (by decide) (by decide)⟩

/-- Claim C1: snap_left sets the surface's snap state to HALFLEFT,
snap_right to HALFRIGHT, snap_up to FULLUP, and unsnap and
discard_snapinfo reset it to UNDETERMINED; and the aerosnap handler, given
the DOWN combo on a non-maximized window whose state is HALFLEFT,
HALFRIGHT or FULLUP, unsnaps the window (its only action is the unsnap; in
particular it does not minimize). -/
theorem aerosnap_state_machine_spec (st : Win32Surface) (env : SnapEnv)
    (monitor snap_monitor : Nat) (wa : GdkRect) :
    (snap_left st env monitor snap_monitor).1.snap_state = AeroSnapState.halfleft ∧
    (snap_right st env monitor snap_monitor).1.snap_state = AeroSnapState.halfright ∧
    (snap_up st env).1.snap_state = AeroSnapState.fullup ∧
    (unsnap st wa).1.snap_state = AeroSnapState.undetermined ∧
    (discard_snapinfo st).snap_state = AeroSnapState.undetermined ∧
    (st.maximized = false → halfsnapped st = true →
      gdk_win32_surface_handle_aerosnap st env AeroSnapCombo.down =
        ((unsnap st (env.workarea env.monitor_at_surface)).1, [SnapAction.actUnsnap])) := by
  refine ⟨?_, ?_, ?_, ?_, rfl, ?_⟩
  · simp [snap_left, stash_window_snap_state]
  · simp [snap_right, stash_window_snap_state]
  · simp [snap_up, stash_window_snap_state]
  · unfold unsnap
    rcases h1 : st.snap_stash with _ | s <;> rcases h2 : st.snap_stash_int with _ | si <;>
      simp [h1, h2]
  · intro hmax hhalf
    unfold gdk_win32_surface_handle_aerosnap
    rcases hu : unsnap st (env.workarea env.monitor_at_surface) with ⟨st1, r⟩
    simp [hmax, hhalf, hu]

/-- Closed instance of aerosnap_state_machine_spec: the DOWN combo on a
non-maximized half-left window unsnaps it rather than minimizing it. -/
theorem aerosnap_state_machine_spec_witness :
    gdk_win32_surface_handle_aerosnap
      (Win32Surface.mk AeroSnapState.halfleft none none 1 0 0 0 0 0 0 false false)
      (SnapEnv.mk (StashEnv.mk false 0 0 0 0 false 0 0 0 0 0 0) []
        (fun _ => GdkRect.mk 0 0 0 0) 0 0 0)
      AeroSnapCombo.down =
      ((unsnap (Win32Surface.mk AeroSnapState.halfleft none none 1 0 0 0 0 0 0 false false)
          ((SnapEnv.mk (StashEnv.mk false 0 0 0 0 false 0 0 0 0 0 0) []
            (fun _ => GdkRect.mk 0 0 0 0) 0 0 0).workarea 0)).1,
       [SnapAction.actUnsnap]) :=
  (aerosnap_state_machine_spec
      (Win32Surface.mk AeroSnapState.halfleft none none 1 0 0 0 0 0 0 false false)
      (SnapEnv.mk (StashEnv.mk false 0 0 0 0 false 0 0 0 0 0 0) []
        (fun _ => GdkRect.mk 0 0 0 0) 0 0 0)
      0 0 (GdkRect.mk 0 0 0 0)).2.2.2.2.2 rfl (by decide)

/-- Claim C2: each of snap_left, snap_right and snap_up stashes the
window's normal-placement geometry in absolute units and as a fraction of
the monitor work area; a later unsnap restores exactly the stashed width
and height when the work area is at least as large in both dimensions,
placing the window by the stashed margin ratios, and otherwise restores
the stashed relative size scaled to the new work area; afterwards the
stash is cleared. -/
theorem snap_unsnap_stash_spec (st st2 : Win32Surface) (env : SnapEnv)
    (monitor snap_monitor : Nat) (wa : GdkRect) (s : GdkRectQ) (si : GdkRect)
    (hp : env.stash.placement_ok = true) (hm : env.stash.monitor_ok = true) :
    ((snap_left st env monitor snap_monitor).1.snap_stash_int =
        some (stash_abs st env.stash) ∧
     (snap_left st env monitor snap_monitor).1.snap_stash =
        some (stash_rel st env.stash)) ∧
    ((snap_right st env monitor snap_monitor).1.snap_stash_int =
        some (stash_abs st env.stash) ∧
     (snap_right st env monitor snap_monitor).1.snap_stash =
        some (stash_rel st env.stash)) ∧
    ((snap_up st env).1.snap_stash_int = some (stash_abs st env.stash) ∧
     (snap_up st env).1.snap_stash = some (stash_rel st env.stash)) ∧
    (st2.snap_stash = some s → st2.snap_stash_int = some si →
      (wa.width ≥ si.width → wa.height ≥ si.height →
        (unsnap st2 wa).2 = some (GdkRect.mk
           (cround ((wa.x : ℚ) + ((wa.width - si.width : Int) : ℚ) * unsnap_hscale s))
           (cround ((wa.y : ℚ) + ((wa.height - si.height : Int) : ℚ) * unsnap_vscale s))
           si.width si.height)) ∧
      (¬(wa.width ≥ si.width ∧ wa.height ≥ si.height) →
        (unsnap st2 wa).2 = some (GdkRect.mk
           (wa.x + cround ((wa.width : ℚ) * s.x))
           (wa.y + cround ((wa.height : ℚ) * s.y))
           (cround ((wa.width : ℚ) * s.width))
           (cround ((wa.height : ℚ) * s.height)))) ∧
      (unsnap st2 wa).1.snap_stash = none ∧
      (unsnap st2 wa).1.snap_stash_int = none) := by
  refine ⟨?_, ?_, ?_, ?_⟩
  · simp [snap_left, stash_window_sets_stash _ _ hp hm, stash_abs, stash_rel, stash_workarea]
  · simp [snap_right, stash_window_sets_stash _ _ hp hm, stash_abs, stash_rel, stash_workarea]
  · simp [snap_up, stash_window_sets_stash _ _ hp hm, stash_abs, stash_rel, stash_workarea]
  · intro hs hsi
    refine ⟨?_, ?_, ?_, ?_⟩
    · intro hw hh
      simp [unsnap, hs, hsi, hw, hh]
    · intro hlt
      simp [unsnap, hs, hsi, hlt]
    · simp [unsnap, hs, hsi]
    · simp [unsnap, hs, hsi]

/-- Closed instance of snap_unsnap_stash_spec: a snap on a concrete
surface stashes the placement, and unsnapping restores the stashed size on
a large work area and the scaled size on a small one. -/
theorem snap_unsnap_stash_spec_witness :
    ((snap_left
        (Win32Surface.mk AeroSnapState.undetermined none none 1 0 0 0 0 0 0 false false)
        (SnapEnv.mk (StashEnv.mk true 10 10 30 30 true 0 0 0 0 100 100) []
          (fun _ => GdkRect.mk 0 0 100 100) 0 0 0) 0 0).1.snap_stash_int =
      some (stash_abs
        (Win32Surface.mk AeroSnapState.undetermined none none 1 0 0 0 0 0 0 false false)
        (StashEnv.mk true 10 10 30 30 true 0 0 0 0 100 100))) ∧
    ((unsnap
        (Win32Surface.mk AeroSnapState.halfleft
          (some (GdkRectQ.mk (1/10) (1/10) (1/5) (1/5)))
          (some (GdkRect.mk 10 10 20 20)) 1 0 0 0 0 0 0 false false)
        (GdkRect.mk 0 0 100 100)).2 = some (GdkRect.mk
           (cround ((0 : ℚ) + ((100 - 20 : Int) : ℚ) *
              unsnap_hscale (GdkRectQ.mk (1/10) (1/10) (1/5) (1/5))))
           (cround ((0 : ℚ) + ((100 - 20 : Int) : ℚ) *
              unsnap_vscale (GdkRectQ.mk (1/10) (1/10) (1/5) (1/5))))
           20 20)) ∧
    ((unsnap
        (Win32Surface.mk AeroSnapState.halfleft
          (some (GdkRectQ.mk (1/10) (1/10) (1/5) (1/5)))
          (some (GdkRect.mk 10 10 20 20)) 1 0 0 0 0 0 0 false false)
        (GdkRect.mk 0 0 10 10)).2 = some (GdkRect.mk
           (0 + cround ((10 : ℚ) * (1/10)))
           (0 + cround ((10 : ℚ) * (1/10)))
           (cround ((10 : ℚ) * (1/5)))
           (cround ((10 : ℚ) * (1/5))))) :=
  ⟨(snap_unsnap_stash_spec
      (Win32Surface.mk AeroSnapState.undetermined none none 1 0 0 0 0 0 0 false false)
      (Win32Surface.mk AeroSnapState.undetermined none none 1 0 0 0 0 0 0 false false)
      (SnapEnv.mk (StashEnv.mk true 10 10 30 30 true 0 0 0 0 100 100) []
        (fun _ => GdkRect.mk 0 0 100 100) 0 0 0) 0 0 (GdkRect.mk 0 0 0 0)
      (GdkRectQ.mk 0 0 0 0) (GdkRect.mk 0 0 0 0) rfl rfl).1.1,
   (((snap_unsnap_stash_spec
      (Win32Surface.mk AeroSnapState.undetermined none none 1 0 0 0 0 0 0 false false)
      (Win32Surface.mk AeroSnapState.halfleft
        (some (GdkRectQ.mk (1/10) (1/10) (1/5) (1/5)))
        (some (GdkRect.mk 10 10 20 20)) 1 0 0 0 0 0 0 false false)
      (SnapEnv.mk (StashEnv.mk true 10 10 30 30 true 0 0 0 0 100 100) []
        (fun _ => GdkRect.mk 0 0 100 100) 0 0 0) 0 0 (GdkRect.mk 0 0 100 100)
      (GdkRectQ.mk (1/10) (1/10) (1/5) (1/5)) (GdkRect.mk 10 10 20 20)
      rfl rfl).2.2.2 rfl rfl).1 (by norm_num) (by norm_num)),
   (((snap_unsnap_stash_spec
      (Win32Surface.mk AeroSnapState.undetermined none none 1 0 0 0 0 0 0 false false)
      (Win32Surface.mk AeroSnapState.halfleft
        (some (GdkRectQ.mk (1/10) (1/10) (1/5) (1/5)))
        (some (GdkRect.mk 10 10 20 20)) 1 0 0 0 0 0 0 false false)
      (SnapEnv.mk (StashEnv.mk true 10 10 30 30 true 0 0 0 0 100 100) []
        (fun _ => GdkRect.mk 0 0 100 100) 0 0 0) 0 0 (GdkRect.mk 0 0 10 10)
      (GdkRectQ.mk (1/10) (1/10) (1/5) (1/5)) (GdkRect.mk 10 10 20 20)
      rfl rfl).2.2.2 rfl rfl).2.1 (by norm_num))⟩

end Gtk
